import Mathlib

/-!
Shallow embedding of the haztrak manifest subdomain:
`apps/trak/services/manifest_service.py` and `apps/trak/models/handler_model.py`.

The Django ORM store is modelled as an explicit record of tables; every manager
`save`/`create` call threads the store explicitly.  Python exceptions are an
explicit `Err` type: a swallowed exception corresponds to a caught constructor,
a propagating one to `Except.error`.  `datetime.utcnow()` is a `Nat` parameter
(seconds since the Unix epoch).  Models whose source files are not available
(contact, signature, serializer) are modelled from the specification and marked
as such in their doc comments.
-/

set_option maxRecDepth 10000

namespace Haztrak

/-- Exception kinds the source distinguishes in its handlers: Python
KeyError, django ValidationError, a database NOT NULL integrity violation,
requests.RequestException, and the Exception(serializer.errors) raised by the serializer. -/
inductive Err where
  | keyErr
  | validationErr
  | integrityErr
  | requestErr
  | invalidData
deriving Repr, DecidableEq

/-- Address row; attributes per spec section 3 (address_model.py is not under src/). -/
structure Address where
  id : Nat
  street : String
  city : String
  state : String
  zip : String
deriving Repr, DecidableEq

/-- Contact row; attributes per spec section 3 (contact_model.py is not under src/). -/
structure Contact where
  id : Nat
  name : String
deriving Repr, DecidableEq

/-- EpaPhone row; attributes per spec section 3 (contact_model.py is not under src/). -/
structure EpaPhone where
  id : Nat
  number : String
deriving Repr, DecidableEq

/-- Handler row, handler_model.py lines 75-152: unique epa_id, NOT NULL foreign
keys to the two addresses and the contact, nullable emergency_phone. -/
structure Handler where
  id : Nat
  epa_id : String
  name : String
  site_address : Nat
  mail_address : Nat
  contact : Nat
  emergency_phone : Option Nat
deriving Repr, DecidableEq

/-- PaperSignature row; attributes per spec section 3 (signature_model.py is not under src/). -/
structure PaperSignature where
  id : Nat
  printed_name : String
deriving Repr, DecidableEq

/-- ESignature row referencing its ManifestHandler; per spec section 3
(signature_model.py is not under src/). -/
structure ESignature where
  id : Nat
  manifest_handler : Nat
  signer : String
deriving Repr, DecidableEq

/-- ManifestHandler row, handler_model.py lines 198-217: NOT NULL foreign key to
Handler, nullable one-to-one PaperSignature. -/
structure ManifestHandler where
  id : Nat
  handler : Nat
  paper_signature : Option Nat
deriving Repr, DecidableEq

/-- Manifest row keyed by its manifest tracking number (mtn); the Manifest model
is not under src/, attributes per spec section 3. -/
structure Manifest where
  id : Nat
  mtn : String
deriving Repr, DecidableEq

/-- The database as a record of tables plus a fresh-id counter. -/
structure Store where
  nextId : Nat
  addresses : List Address
  contacts : List Contact
  phones : List EpaPhone
  handlers : List Handler
  paperSignatures : List PaperSignature
  eSignatures : List ESignature
  manifestHandlers : List ManifestHandler
  manifests : List Manifest
deriving Repr, DecidableEq

/-- The empty database. -/
def emptyStore : Store := ⟨0, [], [], [], [], [], [], [], []⟩

/-- Value supplied under an address key of the handler payload: either an
existing Address instance (the isinstance branch of handler_model.py line 67)
or raw field data (the Address.objects.create branch of line 69). -/
inductive AddressInput where
  | ref (a : Address)
  | raw (street city state zip : String)
deriving Repr, DecidableEq

/-- Contact payload nested in handler data. -/
structure ContactData where
  name : String
deriving Repr, DecidableEq

/-- Emergency phone payload nested in handler data. -/
structure EpaPhoneData where
  number : String
deriving Repr, DecidableEq

/-- Handler payload (the handler_data dict of HandlerManager.save).  A `none`
in `contact`, `site_address`, `mail_address` or the outer `emergency_phone`
models the key being absent from the dict (its pop raises KeyError);
`emergency_phone = some none` models the key present with value None.
`epa_id` is modelled as a required field of the payload. -/
structure HandlerData where
  epa_id : String
  name : String
  contact : Option ContactData
  emergency_phone : Option (Option EpaPhoneData)
  site_address : Option AddressInput
  mail_address : Option AddressInput
deriving Repr, DecidableEq

/-- E-signature payload; `signer = none` models a required nested field missing
from the entry (spec section 7: MissingKey during signature assembly). -/
structure ESignatureData where
  signer : Option String
deriving Repr, DecidableEq

/-- Paper signature payload. -/
structure PaperSignatureData where
  printed_name : String
deriving Repr, DecidableEq

/-- ManifestHandler payload (the handler_data dict of
ManifestHandlerManager.save).  `handler = none` models the "handler" key being
absent (the subscript at handler_model.py line 172 raises KeyError);
`e_signatures`/`paper_signature` at `none` model the respective keys absent
(guarded by the membership tests at lines 166 and 169). -/
structure ManifestHandlerData where
  handler : Option HandlerData
  paper_signature : Option PaperSignatureData
  e_signatures : Option (List ESignatureData)
deriving Repr, DecidableEq

/-- Raw manifest JSON as seen by _save_manifest: `valid` models the outcome of
serializer.is_valid(), `handlers` the nested per-handler payloads the
serializer delegates to ManifestHandlerManager.save. -/
structure ManifestJson where
  valid : Bool
  mtn : String
  handlers : List ManifestHandlerData
deriving Repr, DecidableEq

/-- Handler.objects.filter(epa_id=e).exists() / Handler.objects.get(epa_id=e):
the stored Handler carrying the given epa_id (unique by the uniqueness constraint of the model, so the first match is the match). -/
def findHandler (s : Store) (e : String) : Option Handler :=
  s.handlers.find? (fun h => h.epa_id == e)

/-- Modelled from the spec: Contact.objects.save (contact_model.py is not under
src/).  Spec section 4.2: ContactAssembler always creates a fresh Contact row. -/
def saveContact (s : Store) (cd : ContactData) : Contact × Store :=
  let c : Contact := ⟨s.nextId, cd.name⟩
  (c, { s with nextId := s.nextId + 1, contacts := s.contacts ++ [c] })

namespace HandlerManager

/-- handler_model.py lines 53-61: pop "emergency_phone"; a KeyError from the
pop is caught (debug log) and None returned; a present-but-None value falls
through to the implicit None; otherwise an EpaPhone row is created. -/
def get_emergency_phone (s : Store) (v : Option (Option EpaPhoneData)) :
    Option EpaPhone × Store :=
  match v with
  | none => (none, s)
  | some none => (none, s)
  | some (some pd) =>
    let p : EpaPhone := ⟨s.nextId, pd.number⟩
    (some p, { s with nextId := s.nextId + 1, phones := s.phones ++ [p] })

/-- handler_model.py lines 63-72: pop the address key; a KeyError from the pop
is logged at warning level and re-raised as ValidationError; an existing
Address instance is returned unchanged; raw data creates a new Address row. -/
def get_address (s : Store) (v : Option AddressInput) : Except Err Address × Store :=
  match v with
  | none => (Except.error Err.validationErr, s)
  | some (AddressInput.ref a) => (Except.ok a, s)
  | some (AddressInput.raw street city state zip) =>
    let a : Address := ⟨s.nextId, street, city, state, zip⟩
    (Except.ok a, { s with nextId := s.nextId + 1, addresses := s.addresses ++ [a] })

/-- handler_model.py lines 24-51: get-or-create keyed by epa_id.  An existing
Handler is returned immediately with the rest of the payload discarded.
Otherwise contact, emergency phone and the two addresses are assembled in
source order and the Handler row created.  A KeyError (the "contact" pop) is
caught at line 50: a warning is logged and None returned, nothing created.
A ValidationError from get_address propagates. -/
def save (s : Store) (d : HandlerData) : Except Err (Option Handler) × Store :=
  match findHandler s d.epa_id with
  | some h => (Except.ok (some h), s)
  | none =>
    match d.contact with
    | none => (Except.ok none, s)
    | some cd =>
      let rc := saveContact s cd
      let rp := get_emergency_phone rc.2 d.emergency_phone
      match get_address rp.2 d.site_address with
      | (Except.error e, s1) => (Except.error e, s1)
      | (Except.ok site, s1) =>
        match get_address s1 d.mail_address with
        | (Except.error e, s2) => (Except.error e, s2)
        | (Except.ok mail, s2) =>
          let h : Handler :=
            ⟨s2.nextId, d.epa_id, d.name, site.id, mail.id, rc.1.id, rp.1.map EpaPhone.id⟩
          (Except.ok (some h),
            { s2 with nextId := s2.nextId + 1, handlers := s2.handlers ++ [h] })

end HandlerManager

/-- Modelled from the spec: ESignature.objects.save (signature_model.py is not
under src/).  Spec section 4.4: creates one ESignature per entry, each
referencing the ManifestHandler; spec section 7: a required nested field
missing during signature assembly raises MissingKey (KeyError). -/
def saveESignature (s : Store) (mhId : Nat) (d : ESignatureData) :
    Except Err ESignature × Store :=
  match d.signer with
  | none => (Except.error Err.keyErr, s)
  | some sg =>
    let e : ESignature := ⟨s.nextId, mhId, sg⟩
    (Except.ok e, { s with nextId := s.nextId + 1, eSignatures := s.eSignatures ++ [e] })

namespace ManifestHandlerManager

/-- The e-signature loop of handler_model.py lines 185-189 together with the
surrounding try/except: a KeyError raised by an iteration is caught at line
191 (warning logged, None returned implicitly), leaving earlier writes in
place; on completion the ManifestHandler is returned. -/
def attachESignatures (s : Store) (mh : ManifestHandler) :
    List ESignatureData → Except Err (Option ManifestHandler) × Store
  | [] => (Except.ok (some mh), s)
  | d :: rest =>
    match saveESignature s mh.id d with
    | (Except.error Err.keyErr, s1) => (Except.ok none, s1)
    | (Except.error e, s1) => (Except.error e, s1)
    | (Except.ok _, s1) => attachESignatures s1 mh rest

/-- handler_model.py lines 163-195.  The paper signature (if its key is
present) is created before the try block.  An absent "handler" key is the
KeyError of line 172, caught at line 191 (warning logged, None returned).  The
handler is then reused by epa_id or created via HandlerManager.save; a
ValidationError from that save is re-raised at line 195; a None handler (the
swallowed-KeyError outcome of HandlerManager.save) makes the create of line
179 violate the NOT NULL handler foreign key, an IntegrityError that
propagates (it is neither KeyError nor ValidationError).  Finally the
e-signatures are attached. -/
def save (s : Store) (d : ManifestHandlerData) :
    Except Err (Option ManifestHandler) × Store :=
  let e_signatures := d.e_signatures.getD []
  let rp : Option PaperSignature × Store :=
    match d.paper_signature with
    | some pd =>
      let p : PaperSignature := ⟨s.nextId, pd.printed_name⟩
      (some p, { s with nextId := s.nextId + 1,
                        paperSignatures := s.paperSignatures ++ [p] })
    | none => (none, s)
  match d.handler with
  | none => (Except.ok none, rp.2)
  | some hd =>
    let rh : Except Err (Option Handler) × Store :=
      match findHandler rp.2 hd.epa_id with
      | some h => (Except.ok (some h), rp.2)
      | none => HandlerManager.save rp.2 hd
    match rh with
    | (Except.error e, s1) => (Except.error e, s1)
    | (Except.ok none, s1) => (Except.error Err.integrityErr, s1)
    | (Except.ok (some h), s1) =>
      let mh : ManifestHandler := ⟨s1.nextId, h.id, rp.1.map PaperSignature.id⟩
      let s2 := { s1 with nextId := s1.nextId + 1,
                          manifestHandlers := s1.manifestHandlers ++ [mh] }
      attachESignatures s2 mh e_signatures

end ManifestHandlerManager

/-- handler_model.py lines 219-224: the derived signed property, computed on
read as the OR of "a PaperSignature is attached" and "at least one ESignature
references this ManifestHandler". -/
def ManifestHandler.signed (s : Store) (mh : ManifestHandler) : Bool :=
  let e_signature_exists := s.eSignatures.any (fun e => e.manifest_handler == mh.id)
  let paper_signature_exists := mh.paper_signature.isSome
  paper_signature_exists || e_signature_exists

namespace ManifestService

/-- Modelled from the spec: the delegation by the serializer of nested handler data
to ManifestHandlerManager.save (spec section 6; the serializer is not under
src/).  A propagating error from the assembly of one handler aborts the rest. -/
def serializerAssemble (s : Store) :
    List ManifestHandlerData → Except Err Unit × Store
  | [] => (Except.ok (), s)
  | d :: rest =>
    match ManifestHandlerManager.save s d with
    | (Except.error e, s1) => (Except.error e, s1)
    | (Except.ok _, s1) => serializerAssemble s1 rest

/-- Modelled from the spec: ManifestSerializer.save (the serializer is not
under src/).  Spec section 6: persists the Manifest row and the full nested
handler graph, returning the created Manifest. -/
def serializerSave (s : Store) (j : ManifestJson) : Except Err Manifest × Store :=
  let m : Manifest := ⟨s.nextId, j.mtn⟩
  let s1 := { s with nextId := s.nextId + 1, manifests := s.manifests ++ [m] }
  match serializerAssemble s1 j.handlers with
  | (Except.error e, s2) => (Except.error e, s2)
  | (Except.ok _, s2) => (Except.ok m, s2)

/-- manifest_service.py lines 40-50: transaction.atomic around serializer
validation and save.  A propagating exception rolls the store back to its
incoming value; invalid serializer data raises Exception(serializer.errors). -/
def save_manifest (s : Store) (j : ManifestJson) : Except Err Manifest × Store :=
  if j.valid then
    match serializerSave s j with
    | (Except.ok m, s1) => (Except.ok m, s1)
    | (Except.error e, _) => (Except.error e, s)
  else
    (Except.error Err.invalidData, s)

/-- One iteration of the pull loop, manifest_service.py lines 120-127:
_retrieve_manifest (the `retrieve` parameter models the rcrainfo gateway, with
`Except.error` the RequestException of line 38) followed by _save_manifest;
any error yields the `none` outcome caught by the except of line 125. -/
def pull_step (retrieve : String → Except Err ManifestJson) (s : Store)
    (mtn : String) : Option Manifest × Store :=
  match retrieve mtn with
  | Except.error _ => (none, s)
  | Except.ok j =>
    match save_manifest s j with
    | (Except.ok m, s1) => (some m, s1)
    | (Except.error _, s1) => (none, s1)

/-- manifest_service.py lines 111-128: per-item accumulation.  On success the
mtn of the SAVED manifest is appended to the success list (line 124); on any
exception the REQUESTED mtn is appended to the error list (line 127); the
loop always continues. -/
def pull_manifests (retrieve : String → Except Err ManifestJson) :
    Store → List String → (List String × List String) × Store
  | s, [] => (([], []), s)
  | s, mtn :: rest =>
    match pull_step retrieve s mtn with
    | (some m, s1) =>
      let r := pull_manifests retrieve s1 rest
      ((m.mtn :: r.1.1, r.1.2), r.2)
    | (none, s1) =>
      let r := pull_manifests retrieve s1 rest
      ((r.1.1, mtn :: r.1.2), r.2)

/-- The timedelta of manifest_service.py line 86, minutes=60 * 24 * 30 * 12,
converted to seconds. -/
def default_window_seconds : Nat := 60 * 24 * 30 * 12 * 60

/-- Civil date (year, month, day) from days since 1970-01-01, proleptic
Gregorian calendar. -/
def civilFromDays (days : Nat) : Nat × Nat × Nat :=
  let z := days + 719468
  let era := z / 146097
  let doe := z % 146097
  let yoe := (doe - doe / 1460 + doe / 36524 - doe / 146096) / 365
  let y := yoe + era * 400
  let doy := doe - (365 * yoe + yoe / 4 - yoe / 100)
  let mp := (5 * doy + 2) / 153
  let d := doy - (153 * mp + 2) / 5 + 1
  let m := if mp < 10 then mp + 3 else mp - 9
  (if m <= 2 then y + 1 else y, m, d)

/-- Two-digit zero padding. -/
def pad2 (n : Nat) : String := if n < 10 then "0" ++ toString n else toString n

/-- strftime with the date_format of manifest_service.py line 75
("%Y-%m-%dT%H:%M:%SZ") applied to a UTC timestamp in epoch seconds. -/
def format_date (t : Nat) : String :=
  let days := t / 86400
  let secs := t % 86400
  let ymd := civilFromDays days
  toString ymd.1 ++ "-" ++ pad2 ymd.2.1 ++ "-" ++ pad2 ymd.2.2 ++ "T" ++
    pad2 (secs / 3600) ++ ":" ++ pad2 (secs % 3600 / 60) ++ ":" ++
    pad2 (secs % 60) ++ "Z"

/-- Keyword arguments of search_rcra_mtn with the defaults of
manifest_service.py lines 52-61; date_type defaults to "UpdatedDate", every
other filter to None. -/
structure SearchArgs where
  site_id : Option String := none
  start_date : Option Nat := none
  end_date : Option Nat := none
  status : Option String := none
  date_type : Option String := some "UpdatedDate"
  state_code : Option String := none
  site_type : Option String := none
deriving Repr, DecidableEq

/-- The numeric search window of manifest_service.py lines 76-88 before
rendering: end defaults to now, start to now minus the timedelta of line 86. -/
def search_window (now : Nat) (a : SearchArgs) : Nat × Nat :=
  (a.start_date.getD (now - default_window_seconds), a.end_date.getD now)

/-- manifest_service.py lines 75-101: date defaulting and rendering, the
search_params dict in source key order, and the None-stripping dict
comprehension of line 101.  `now` stands for datetime.utcnow(). -/
def search_rcra_mtn (now : Nat) (a : SearchArgs) : List (String × String) :=
  let end_date := format_date ((search_window now a).2)
  let start_date := format_date ((search_window now a).1)
  let search_params : List (String × Option String) :=
    [("stateCode", a.state_code), ("siteId", a.site_id), ("status", a.status),
     ("dateType", a.date_type), ("siteType", a.site_type),
     ("endDate", some end_date), ("startDate", some start_date)]
  search_params.filterMap (fun kv => kv.2.map (fun v => (kv.1, v)))

end ManifestService

end Haztrak

namespace Haztrak

/-- A complete handler payload used as a concrete input. -/
def fullHandlerData : HandlerData :=
  { epa_id := "VATESTGEN001", name := "Test Generator",
    contact := some ⟨"Alice Smith"⟩, emergency_phone := some none,
    site_address := some (AddressInput.raw "123 Main St" "Springfield" "VA" "20151"),
    mail_address := some (AddressInput.raw "PO Box 1" "Springfield" "VA" "20151") }

/-- A handler payload for the same epa_id with different nested values and both
address keys absent. -/
def brokenHandlerData : HandlerData :=
  { epa_id := "VATESTGEN001", name := "Test Generator",
    contact := some ⟨"Bob Jones"⟩, emergency_phone := none,
    site_address := none, mail_address := none }

/-- A handler payload whose contact key is absent. -/
def noContactHandlerData : HandlerData :=
  { epa_id := "VAT000000099", name := "No Contact", contact := none,
    emergency_phone := none, site_address := none, mail_address := none }

/-- ManifestHandler payload whose "handler" key is absent but which carries a
paper signature. -/
def c4Payload : ManifestHandlerData :=
  { handler := none, paper_signature := some ⟨"Jane Doe"⟩, e_signatures := none }

/-- ManifestHandler payload around the complete handler payload. -/
def goodMhd : ManifestHandlerData :=
  { handler := some fullHandlerData, paper_signature := none, e_signatures := none }

/-- ManifestHandler payload around the payload with missing address keys. -/
def brokenMhd : ManifestHandlerData :=
  { handler := some brokenHandlerData, paper_signature := none, e_signatures := none }

/-- ManifestHandler payload whose second e-signature entry is missing its
required field. -/
def c3Payload : ManifestHandlerData :=
  { handler := some fullHandlerData, paper_signature := none,
    e_signatures := some [{ signer := some "Carol" }, { signer := none }] }

/-- Manifest JSON whose assembly fails partway through attaching e-signatures. -/
def c3Json : ManifestJson :=
  { valid := true, mtn := "100001234ELC", handlers := [c3Payload] }

/-- Manifest JSON whose handler assembly raises a ValidationError. -/
def brokenJson : ManifestJson :=
  { valid := true, mtn := "MTN001", handlers := [brokenMhd] }

/-- Manifest JSON that assembles fully. -/
def goodJson : ManifestJson :=
  { valid := true, mtn := "MTN002", handlers := [goodMhd] }

/-- Gateway for the duplicate-MTN scenario: MTN001 resolves to the payload
whose handler assembly fails while the handler does not yet exist, MTN002 to
the payload that creates that handler. -/
def c1Env (mtn : String) : Except Err ManifestJson :=
  if mtn == "MTN001" then Except.ok brokenJson
  else if mtn == "MTN002" then Except.ok goodJson
  else Except.error Err.requestErr

/-- Gateway on which every retrieval fails. -/
def c1FailEnv : String → Except Err ManifestJson := fun _ => Except.error Err.requestErr

/-- The Handler row created by saving fullHandlerData into the empty store. -/
def handlerOne : Handler := ⟨3, "VATESTGEN001", "Test Generator", 1, 2, 0, none⟩

/-- The store after saving fullHandlerData into the empty store. -/
def storeOne : Store :=
  { nextId := 4,
    addresses := [⟨1, "123 Main St", "Springfield", "VA", "20151"⟩,
                  ⟨2, "PO Box 1", "Springfield", "VA", "20151"⟩],
    contacts := [⟨0, "Alice Smith"⟩],
    phones := [], handlers := [handlerOne], paperSignatures := [],
    eSignatures := [], manifestHandlers := [], manifests := [] }

/-- The ManifestHandler row persisted by saving c3Payload (or goodMhd) into
the empty store. -/
def mhOne : ManifestHandler := ⟨4, 3, none⟩

end Haztrak

namespace Haztrak

/-- saveContact leaves the handlers table unchanged. -/
@[simp] theorem saveContact_handlers (s : Store) (cd : ContactData) :
    ((saveContact s cd).2).handlers = s.handlers := rfl

/-- get_emergency_phone leaves the handlers table unchanged. -/
@[simp] theorem get_emergency_phone_handlers (s : Store) (v : Option (Option EpaPhoneData)) :
    ((HandlerManager.get_emergency_phone s v).2).handlers = s.handlers := by
  cases v with
  | none => rfl
  | some o => cases o <;> rfl

/-- get_address leaves the handlers table unchanged. -/
@[simp] theorem get_address_handlers (s : Store) (v : Option AddressInput) :
    ((HandlerManager.get_address s v).2).handlers = s.handlers := by
  cases v with
  | none => rfl
  | some a => cases a <;> rfl

/-- saveESignature leaves the handlers and manifestHandlers tables unchanged. -/
@[simp] theorem saveESignature_handlers (s : Store) (i : Nat) (d : ESignatureData) :
    ((saveESignature s i d).2).handlers = s.handlers ∧
    ((saveESignature s i d).2).manifestHandlers = s.manifestHandlers := by
  cases h : d.signer <;> simp [saveESignature, h]

/-- find? over an appended list when the first part has no match. -/
theorem find?_append_of_none {α : Type} (l1 l2 : List α) (p : α → Bool)
    (h : l1.find? p = none) : (l1 ++ l2).find? p = l2.find? p := by
  rw [List.find?_append, h]; rfl

end Haztrak

namespace Haztrak

/-- C9: the derived ManifestHandler.signed property is true iff the
ManifestHandler has a non-null PaperSignature or at least one ESignature
references it; with only a PaperSignature it is signed, with only one
ESignature it is signed, with both it is signed, with neither it is not. -/
theorem signed_iff_paper_or_esignature :
    (∀ (s : Store) (mh : ManifestHandler),
      ManifestHandler.signed s mh = true ↔
        (mh.paper_signature.isSome = true ∨
          ∃ e, e ∈ s.eSignatures ∧ e.manifest_handler = mh.id)) ∧
    ManifestHandler.signed
      { emptyStore with paperSignatures := [⟨7, "Jane"⟩] } ⟨0, 1, some 7⟩ = true ∧
    ManifestHandler.signed
      { emptyStore with eSignatures := [⟨8, 0, "Carol"⟩] } ⟨0, 1, none⟩ = true ∧
    ManifestHandler.signed
      { emptyStore with paperSignatures := [⟨7, "Jane"⟩],
                        eSignatures := [⟨8, 0, "Carol"⟩] } ⟨0, 1, some 7⟩ = true ∧
    ManifestHandler.signed emptyStore ⟨0, 1, none⟩ = false := by
  refine ⟨?_, by decide, by decide, by decide, by decide⟩
  intro s mh
  unfold ManifestHandler.signed
  simp [List.any_eq_true, beq_iff_eq]

/-- C10: get_address returns an existing Address reference unchanged and
creates no row for it; raw field data creates exactly one new Address row,
which is returned. -/
theorem get_address_reuse_or_create :
    (∀ (s : Store) (a : Address),
      HandlerManager.get_address s (some (AddressInput.ref a)) = (Except.ok a, s)) ∧
    (∀ (s : Store) (street city state zip : String),
      HandlerManager.get_address s (some (AddressInput.raw street city state zip)) =
        (Except.ok ⟨s.nextId, street, city, state, zip⟩,
          { s with nextId := s.nextId + 1,
                   addresses := s.addresses ++ [⟨s.nextId, street, city, state, zip⟩] })) :=
  ⟨fun _ _ => rfl, fun _ _ _ _ _ => rfl⟩

/-- C5: with no start or end date, the built window ends exactly at now but
starts only 60*24*30*12 minutes = 360 days earlier, i.e. about one year, not
the three years the documentation promises; the rendered payload at a
concrete now shows the fixed UTC format and the 360-day-old start date. -/
theorem search_window_default_360_days :
    ManifestService.search_window 1700000000 {} =
      (1700000000 - 60 * 24 * 30 * 12 * 60, 1700000000) ∧
    60 * 24 * 30 * 12 * 60 = 360 * 86400 ∧
    ManifestService.search_rcra_mtn 1700000000 {} =
      [("dateType", "UpdatedDate"), ("endDate", "2023-11-14T22:13:20Z"),
       ("startDate", "2022-11-19T22:13:20Z")] := by
  refine ⟨rfl, rfl, ?_⟩
  decide

/-- C6 counterexample: calling search_rcra_mtn with only site_id set still
produces a dateType key, because date_type defaults to "UpdatedDate" rather
than to an unset value; the claim that the payload contains no dateType key
is therefore false. -/
theorem search_payload_contains_date_type :
    ("dateType", "UpdatedDate") ∈
      ManifestService.search_rcra_mtn 1700000000 { site_id := some "VAT000000000" } ∧
    "dateType" ∈ (ManifestService.search_rcra_mtn 1700000000
      { site_id := some "VAT000000000" }).map Prod.fst := by
  decide

/-- C6 amended: every filter whose value is None is omitted from the payload,
and with only site_id set the payload holds exactly the keys siteId,
dateType, endDate, startDate: dateType appears because it defaults to
"UpdatedDate" rather than unset. -/
theorem search_unset_filters_omitted :
    (∀ now : Nat,
      (ManifestService.search_rcra_mtn now { site_id := some "VAT000000000" }).map
        Prod.fst = ["siteId", "dateType", "endDate", "startDate"]) ∧
    (∀ (now : Nat) (a : ManifestService.SearchArgs),
      ("stateCode" ∈ (ManifestService.search_rcra_mtn now a).map Prod.fst ↔
        a.state_code.isSome = true) ∧
      ("siteId" ∈ (ManifestService.search_rcra_mtn now a).map Prod.fst ↔
        a.site_id.isSome = true) ∧
      ("status" ∈ (ManifestService.search_rcra_mtn now a).map Prod.fst ↔
        a.status.isSome = true) ∧
      ("dateType" ∈ (ManifestService.search_rcra_mtn now a).map Prod.fst ↔
        a.date_type.isSome = true) ∧
      ("siteType" ∈ (ManifestService.search_rcra_mtn now a).map Prod.fst ↔
        a.site_type.isSome = true) ∧
      "endDate" ∈ (ManifestService.search_rcra_mtn now a).map Prod.fst ∧
      "startDate" ∈ (ManifestService.search_rcra_mtn now a).map Prod.fst) := by
  constructor
  · intro now
    rfl
  · intro now a
    obtain ⟨si, sd, ed, st, dt, sc, sty⟩ := a
    cases si <;> cases st <;> cases dt <;> cases sc <;> cases sty <;>
      simp [ManifestService.search_rcra_mtn]

end Haztrak

namespace Haztrak

/-- C4 counterexample: a payload whose "handler" key is absent but which
carries a paper signature block has its KeyError swallowed (the save returns
None) and creates no Handler or ManifestHandler, yet the PaperSignature row
created before the failure remains persisted, contradicting the claim that no
signature record from the call is persisted. -/
theorem missing_key_persists_paper_signature :
    (ManifestHandlerManager.save emptyStore c4Payload).1 = Except.ok none ∧
    (ManifestHandlerManager.save emptyStore c4Payload).2.paperSignatures =
      [⟨0, "Jane Doe"⟩] ∧
    (ManifestHandlerManager.save emptyStore c4Payload).2.handlers = [] ∧
    (ManifestHandlerManager.save emptyStore c4Payload).2.manifestHandlers = [] :=
  ⟨rfl, rfl, rfl, rfl⟩

/-- C4 amended: a missing required key during handler or contact assembly is
swallowed — the save returns nothing and persists no Handler and no
ManifestHandler — but a PaperSignature created before the failure may remain
persisted.  Concretely: with the "handler" key absent,
ManifestHandlerManager.save returns None leaving handlers and
manifestHandlers untouched, and with the "contact" key absent (and the
epa_id unseen) HandlerManager.save returns None leaving the store entirely
untouched. -/
theorem missing_key_swallowed_nothing_created (s : Store) (d : ManifestHandlerData)
    (hd0 : HandlerData) (hmk : d.handler = none) (hck : hd0.contact = none)
    (hnf : findHandler s hd0.epa_id = none) :
    (ManifestHandlerManager.save s d).1 = Except.ok none ∧
    (ManifestHandlerManager.save s d).2.handlers = s.handlers ∧
    (ManifestHandlerManager.save s d).2.manifestHandlers = s.manifestHandlers ∧
    HandlerManager.save s hd0 = (Except.ok none, s) := by
  refine ⟨?_, ?_, ?_, ?_⟩
  · unfold ManifestHandlerManager.save
    cases hp : d.paper_signature <;> simp [hmk, hp]
  · unfold ManifestHandlerManager.save
    cases hp : d.paper_signature <;> simp [hmk, hp]
  · unfold ManifestHandlerManager.save
    cases hp : d.paper_signature <;> simp [hmk, hp]
  · unfold HandlerManager.save
    rw [hnf, hck]

/-- C4 amended, witness at a concrete input. -/
theorem missing_key_swallowed_witness :
    (ManifestHandlerManager.save emptyStore c4Payload).1 = Except.ok none ∧
    (ManifestHandlerManager.save emptyStore c4Payload).2.handlers =
      emptyStore.handlers ∧
    (ManifestHandlerManager.save emptyStore c4Payload).2.manifestHandlers =
      emptyStore.manifestHandlers ∧
    HandlerManager.save emptyStore noContactHandlerData =
      (Except.ok none, emptyStore) :=
  missing_key_swallowed_nothing_created emptyStore c4Payload noContactHandlerData
    rfl rfl rfl

/-- C3 counterexample: when attaching e-signatures fails partway (the second
entry is missing its required field), the KeyError is swallowed inside
ManifestHandlerManager.save, so nothing propagates to the atomic block: the
transaction commits and the Manifest, the ManifestHandler, the new Handler
and the first ESignature all remain persisted, contradicting the claim that
the unit of work rolls back. -/
theorem esignature_failure_commits_assembly :
    (ManifestService.save_manifest emptyStore c3Json).1 =
      Except.ok ⟨0, "100001234ELC"⟩ ∧
    (ManifestService.save_manifest emptyStore c3Json).2.manifests =
      [⟨0, "100001234ELC"⟩] ∧
    (ManifestService.save_manifest emptyStore c3Json).2.manifestHandlers =
      [⟨5, 4, none⟩] ∧
    (ManifestService.save_manifest emptyStore c3Json).2.handlers ≠ [] ∧
    (ManifestService.save_manifest emptyStore c3Json).2.eSignatures =
      [⟨6, 5, "Carol"⟩] :=
  ⟨rfl, rfl, rfl, by decide, rfl⟩

/-- C3 amended: the atomic unit of work around _save_manifest rolls the store
back whenever a failure PROPAGATES out of assembly (for example a
ValidationError from address resolution, or invalid serializer data); a
KeyError partway through e-signature attachment is instead swallowed inside
ManifestHandlerManager.save and the transaction commits its partial writes. -/
theorem save_manifest_rollback_on_error (s : Store) (j : ManifestJson) (e : Err)
    (h : (ManifestService.save_manifest s j).1 = Except.error e) :
    (ManifestService.save_manifest s j).2 = s := by
  unfold ManifestService.save_manifest at h ⊢
  by_cases hv : j.valid
  · simp only [hv, if_true] at h ⊢
    cases hss : ManifestService.serializerSave s j with
    | mk r st =>
      cases r with
      | ok m => rw [hss] at h; simp at h
      | error e2 => rfl
  · simp [hv]

/-- C3 amended, witness: a manifest whose handler assembly raises a
ValidationError leaves the store exactly as it was. -/
theorem save_manifest_rollback_witness :
    (ManifestService.save_manifest emptyStore brokenJson).2 = emptyStore :=
  save_manifest_rollback_on_error emptyStore brokenJson Err.validationErr rfl

end Haztrak

namespace Haztrak

/-- A successful HandlerManager.save leaves the saved handler findable under
the epa_id of the payload in the resulting store. -/
theorem handlerSave_ok_some_find (s : Store) (d : HandlerData) (h : Handler)
    (s1 : Store) (hs : HandlerManager.save s d = (Except.ok (some h), s1)) :
    findHandler s1 d.epa_id = some h := by
  unfold HandlerManager.save at hs
  cases hf : findHandler s d.epa_id with
  | some h0 =>
    simp only [hf, Prod.mk.injEq, Except.ok.injEq, Option.some.injEq] at hs
    obtain ⟨rfl, rfl⟩ := hs
    exact hf
  | none =>
    simp only [hf] at hs
    cases hc : d.contact with
    | none => simp only [hc] at hs; simp at hs
    | some cd =>
      simp only [hc] at hs
      split at hs
      next e s2 heq1 => simp at hs
      next site s2 heq1 =>
        split at hs
        next e s3 heq2 => simp at hs
        next mail s3 heq2 =>
          simp only [Prod.mk.injEq, Except.ok.injEq, Option.some.injEq] at hs
          obtain ⟨rfl, rfl⟩ := hs
          have h3 : s3.handlers = s.handlers := by
            have e1 : s3 = (HandlerManager.get_address s2 d.mail_address).2 := by
              rw [heq2]
            have e2 : s2 = (HandlerManager.get_address
                ((HandlerManager.get_emergency_phone
                  ((saveContact s cd).2) d.emergency_phone).2) d.site_address).2 := by
              rw [heq1]
            rw [e1, get_address_handlers, e2, get_address_handlers,
              get_emergency_phone_handlers, saveContact_handlers]
          unfold findHandler at hf ⊢
          simp only [h3]
          rw [find?_append_of_none _ _ _ hf]
          simp [List.find?]

/-- A successful HandlerManager.save leaves the saved handler a member of the
handlers table. -/
theorem handlerSave_ok_some_mem (s : Store) (d : HandlerData) (h : Handler)
    (s1 : Store) (hs : HandlerManager.save s d = (Except.ok (some h), s1)) :
    h ∈ s1.handlers := by
  have hfind := handlerSave_ok_some_find s d h s1 hs
  unfold findHandler at hfind
  exact List.mem_of_find?_eq_some hfind

/-- C2: after a HandlerManager.save has returned a Handler, saving any payload
carrying the same epa_id — whatever its nested field values — returns that
same Handler and leaves the store completely unchanged: no new Address,
Contact or EpaPhone row, and no field of the existing Handler updated. -/
theorem handler_save_idempotent (s : Store) (d1 d2 : HandlerData) (h : Handler)
    (s1 : Store) (hs : HandlerManager.save s d1 = (Except.ok (some h), s1))
    (he : d2.epa_id = d1.epa_id) :
    HandlerManager.save s1 d2 = (Except.ok (some h), s1) := by
  have hfind := handlerSave_ok_some_find s d1 h s1 hs
  unfold HandlerManager.save
  rw [he, hfind]

/-- C2 witness: saving the full payload and then a different payload with the
same epa_id returns the first Handler and leaves the store unchanged. -/
theorem handler_save_idempotent_witness :
    HandlerManager.save storeOne brokenHandlerData =
      (Except.ok (some handlerOne), storeOne) :=
  handler_save_idempotent emptyStore fullHandlerData brokenHandlerData handlerOne
    storeOne rfl rfl

/-- saveContact leaves the manifestHandlers table unchanged. -/
@[simp] theorem saveContact_manifestHandlers (s : Store) (cd : ContactData) :
    ((saveContact s cd).2).manifestHandlers = s.manifestHandlers := rfl

/-- get_emergency_phone leaves the manifestHandlers table unchanged. -/
@[simp] theorem get_emergency_phone_manifestHandlers (s : Store)
    (v : Option (Option EpaPhoneData)) :
    ((HandlerManager.get_emergency_phone s v).2).manifestHandlers =
      s.manifestHandlers := by
  cases v with
  | none => rfl
  | some o => cases o <;> rfl

/-- get_address leaves the manifestHandlers table unchanged. -/
@[simp] theorem get_address_manifestHandlers (s : Store) (v : Option AddressInput) :
    ((HandlerManager.get_address s v).2).manifestHandlers = s.manifestHandlers := by
  cases v with
  | none => rfl
  | some a => cases a <;> rfl

/-- HandlerManager.save never touches the manifestHandlers table, whatever its
outcome. -/
theorem handlerSave_manifestHandlers (s : Store) (d : HandlerData) :
    ((HandlerManager.save s d).2).manifestHandlers = s.manifestHandlers := by
  unfold HandlerManager.save
  cases hf : findHandler s d.epa_id with
  | some h => simp only [hf]
  | none =>
    simp only [hf]
    cases hc : d.contact with
    | none => simp only [hc]
    | some cd =>
      simp only [hc]
      split
      next e s1 heq =>
        have e1 := congrArg Prod.snd heq
        simp only at e1
        rw [← e1]
        simp
      next site s1 heq =>
        split
        next e s2 heq2 =>
          have e2 := congrArg Prod.snd heq2
          have e1 := congrArg Prod.snd heq
          simp only at e1 e2
          rw [← e2, get_address_manifestHandlers, ← e1]
          simp
        next mail s2 heq2 =>
          have e2 := congrArg Prod.snd heq2
          have e1 := congrArg Prod.snd heq
          simp only at e1 e2
          simp only [← e2, ← e1]
          simp

/-- attachESignatures only appends e-signature rows: whatever its outcome, it
touches neither the handlers nor the manifestHandlers table. -/
theorem attachESignatures_tables (mh : ManifestHandler) :
    ∀ (l : List ESignatureData) (s : Store),
      ((ManifestHandlerManager.attachESignatures s mh l).2).handlers = s.handlers ∧
      ((ManifestHandlerManager.attachESignatures s mh l).2).manifestHandlers =
        s.manifestHandlers := by
  intro l
  induction l with
  | nil => intro s; exact ⟨rfl, rfl⟩
  | cons d rest ih =>
    intro s
    unfold ManifestHandlerManager.attachESignatures
    cases hsig : d.signer with
    | none => simp [saveESignature, hsig]
    | some sg =>
      simp only [saveESignature, hsig]
      exact ih _

/-- Every ManifestHandler row that is in the store after a
ManifestHandlerManager.save but was not there before — whatever the save
returned, including the None of a swallowed e-signature KeyError — references
a Handler that exists in the resulting store. -/
theorem mhSave_new_references_existing (s : Store) (d : ManifestHandlerData)
    (res : Except Err (Option ManifestHandler)) (st : Store)
    (hsd : ManifestHandlerManager.save s d = (res, st)) (mh : ManifestHandler)
    (hmem : mh ∈ st.manifestHandlers) (hnew : mh ∉ s.manifestHandlers) :
    ∃ h, h ∈ st.handlers ∧ h.id = mh.handler := by
  simp only [ManifestHandlerManager.save] at hsd
  cases hp : d.paper_signature <;> simp only [hp] at hsd <;>
    cases hh : d.handler <;> simp only [hh] at hsd
  case none.none =>
    simp only [Prod.mk.injEq] at hsd
    obtain ⟨-, rfl⟩ := hsd
    exact absurd hmem hnew
  case none.some hd =>
    split at hsd
    next e st1 heq =>
      simp only [Prod.mk.injEq] at hsd
      obtain ⟨-, rfl⟩ := hsd
      split at heq
      next h0 hf => simp at heq
      next hf =>
        have e1 := congrArg Prod.snd heq
        simp only at e1
        rw [← e1, handlerSave_manifestHandlers] at hmem
        exact absurd hmem hnew
    next st1 heq =>
      simp only [Prod.mk.injEq] at hsd
      obtain ⟨-, rfl⟩ := hsd
      split at heq
      next h0 hf => simp at heq
      next hf =>
        have e1 := congrArg Prod.snd heq
        simp only at e1
        rw [← e1, handlerSave_manifestHandlers] at hmem
        exact absurd hmem hnew
    next h st1 heq =>
      obtain ⟨hth, htm⟩ := attachESignatures_tables _ (d.e_signatures.getD []) _
      rw [hsd] at hth htm
      replace hth : st.handlers = st1.handlers := hth
      replace htm : st.manifestHandlers =
        st1.manifestHandlers ++ [⟨st1.nextId, h.id, none⟩] := htm
      have hst1 : st1.manifestHandlers = s.manifestHandlers ∧ h ∈ st1.handlers := by
        split at heq
        next h0 hf =>
          simp only [Prod.mk.injEq, Except.ok.injEq, Option.some.injEq] at heq
          obtain ⟨rfl, rfl⟩ := heq
          exact ⟨rfl, by unfold findHandler at hf; exact List.mem_of_find?_eq_some hf⟩
        next hf =>
          have e1 := congrArg Prod.snd heq
          simp only at e1
          refine ⟨?_, handlerSave_ok_some_mem _ hd h st1 heq⟩
          rw [← e1, handlerSave_manifestHandlers]
      rw [htm, hst1.1] at hmem
      simp only [List.mem_append, List.mem_singleton] at hmem
      rcases hmem with hmem | rfl
      · exact absurd hmem hnew
      · exact ⟨h, by rw [hth]; exact hst1.2, rfl⟩
  case some.none pd =>
    simp only [Prod.mk.injEq] at hsd
    obtain ⟨-, rfl⟩ := hsd
    exact absurd hmem hnew
  case some.some pd hd =>
    split at hsd
    next e st1 heq =>
      simp only [Prod.mk.injEq] at hsd
      obtain ⟨-, rfl⟩ := hsd
      split at heq
      next h0 hf => simp at heq
      next hf =>
        have e1 := congrArg Prod.snd heq
        simp only at e1
        rw [← e1, handlerSave_manifestHandlers] at hmem
        exact absurd hmem hnew
    next st1 heq =>
      simp only [Prod.mk.injEq] at hsd
      obtain ⟨-, rfl⟩ := hsd
      split at heq
      next h0 hf => simp at heq
      next hf =>
        have e1 := congrArg Prod.snd heq
        simp only at e1
        rw [← e1, handlerSave_manifestHandlers] at hmem
        exact absurd hmem hnew
    next h st1 heq =>
      obtain ⟨hth, htm⟩ := attachESignatures_tables _ (d.e_signatures.getD []) _
      rw [hsd] at hth htm
      replace hth : st.handlers = st1.handlers := hth
      replace htm : st.manifestHandlers =
        st1.manifestHandlers ++ [⟨st1.nextId, h.id, some s.nextId⟩] := htm
      have hst1 : st1.manifestHandlers = s.manifestHandlers ∧ h ∈ st1.handlers := by
        split at heq
        next h0 hf =>
          simp only [Prod.mk.injEq, Except.ok.injEq, Option.some.injEq] at heq
          obtain ⟨rfl, rfl⟩ := heq
          exact ⟨rfl, by unfold findHandler at hf; exact List.mem_of_find?_eq_some hf⟩
        next hf =>
          have e1 := congrArg Prod.snd heq
          simp only at e1
          refine ⟨?_, handlerSave_ok_some_mem _ hd h st1 heq⟩
          rw [← e1, handlerSave_manifestHandlers]
      rw [htm, hst1.1] at hmem
      simp only [List.mem_append, List.mem_singleton] at hmem
      rcases hmem with hmem | rfl
      · exact absurd hmem hnew
      · exact ⟨h, by rw [hth]; exact hst1.2, rfl⟩

/-- C8: every ManifestHandler persisted by ManifestHandlerManager.save — every
row present in the resulting store that was not in the incoming store,
whether the save returned it or swallowed a later e-signature KeyError and
returned None — has a handler reference that is a Handler existing in the
resulting store (non-null by the NOT NULL foreign key: a null handler aborts
the create instead). -/
theorem manifest_handler_references_existing (s : Store) (d : ManifestHandlerData)
    (mh : ManifestHandler)
    (hmem : mh ∈ (ManifestHandlerManager.save s d).2.manifestHandlers)
    (hnew : mh ∉ s.manifestHandlers) :
    ∃ h, h ∈ (ManifestHandlerManager.save s d).2.handlers ∧ h.id = mh.handler :=
  mhSave_new_references_existing s d (ManifestHandlerManager.save s d).1
    (ManifestHandlerManager.save s d).2 rfl mh hmem hnew

/-- C8 witness, at the swallowed-KeyError path: saving the payload whose second
e-signature entry is malformed returns None, yet the new ManifestHandler is
persisted and references the Handler that exists in the resulting store. -/
theorem manifest_handler_references_existing_witness :
    mhOne ∈ (ManifestHandlerManager.save emptyStore c3Payload).2.manifestHandlers ∧
    mhOne ∉ emptyStore.manifestHandlers ∧
    (ManifestHandlerManager.save emptyStore c3Payload).1 = Except.ok none ∧
    ∃ h, h ∈ (ManifestHandlerManager.save emptyStore c3Payload).2.handlers ∧
      h.id = mhOne.handler :=
  ⟨by decide, by decide, rfl,
    manifest_handler_references_existing emptyStore c3Payload mhOne
      (by decide) (by decide)⟩

/-- findHandler depends only on the handlers table. -/
theorem findHandler_eq_of_handlers_eq (t s : Store) (e : String)
    (h : t.handlers = s.handlers) : findHandler t e = findHandler s e := by
  unfold findHandler
  rw [h]

/-- With the contact key present and the epa_id unseen, a missing address key
makes HandlerManager.save end in a ValidationError. -/
theorem handlerSave_missing_address (s : Store) (hd : HandlerData)
    (h2 : hd.contact.isSome = true) (h3 : findHandler s hd.epa_id = none)
    (h4 : hd.site_address = none ∨ hd.mail_address = none) :
    (HandlerManager.save s hd).1 = Except.error Err.validationErr := by
  obtain ⟨cd, hc⟩ := Option.isSome_iff_exists.mp h2
  unfold HandlerManager.save
  simp only [h3, hc]
  rcases h4 with h4 | h4
  · simp [h4, HandlerManager.get_address]
  · cases hsite : hd.site_address with
    | none => simp [HandlerManager.get_address]
    | some ai => cases ai <;> simp [h4, HandlerManager.get_address]

/-- C7: an absent site_address or mail_address key makes get_address raise a
ValidationError rather than fail silently, HandlerManager.save ends in that
ValidationError, and it propagates out of ManifestHandlerManager.save to the
caller instead of being swallowed. -/
theorem address_validation_error_propagates (s : Store) (d : ManifestHandlerData)
    (hd : HandlerData) (h1 : d.handler = some hd) (h2 : hd.contact.isSome = true)
    (h3 : findHandler s hd.epa_id = none)
    (h4 : hd.site_address = none ∨ hd.mail_address = none) :
    (∀ s0 : Store, HandlerManager.get_address s0 none =
      (Except.error Err.validationErr, s0)) ∧
    (HandlerManager.save s hd).1 = Except.error Err.validationErr ∧
    (ManifestHandlerManager.save s d).1 = Except.error Err.validationErr := by
  refine ⟨fun s0 => rfl, handlerSave_missing_address s hd h2 h3 h4, ?_⟩
  simp only [ManifestHandlerManager.save, h1]
  cases hp : d.paper_signature with
  | none =>
    simp only []
    rw [h3]
    cases hsv : HandlerManager.save s hd with
    | mk r st =>
      have hv := handlerSave_missing_address s hd h2 h3 h4
      rw [hsv] at hv
      simp only at hv
      subst hv
      simp [hsv]
  | some pd =>
    simp only []
    rw [findHandler_eq_of_handlers_eq
      { s with nextId := s.nextId + 1,
               paperSignatures := s.paperSignatures ++ [⟨s.nextId, pd.printed_name⟩] }
      s hd.epa_id rfl, h3]
    cases hsv : HandlerManager.save
      { s with nextId := s.nextId + 1,
               paperSignatures := s.paperSignatures ++ [⟨s.nextId, pd.printed_name⟩] }
      hd with
    | mk r st =>
      have hv := handlerSave_missing_address
        { s with nextId := s.nextId + 1,
                 paperSignatures := s.paperSignatures ++ [⟨s.nextId, pd.printed_name⟩] }
        hd h2
        (by rw [findHandler_eq_of_handlers_eq
            { s with nextId := s.nextId + 1,
                     paperSignatures := s.paperSignatures ++ [⟨s.nextId, pd.printed_name⟩] }
            s hd.epa_id rfl]; exact h3) h4
      rw [hsv] at hv
      simp only at hv
      subst hv
      simp [hsv]

/-- C7 witness: the payload with both address keys absent yields the
ValidationError from HandlerManager.save and from
ManifestHandlerManager.save. -/
theorem address_validation_error_witness :
    (∀ s0 : Store, HandlerManager.get_address s0 none =
      (Except.error Err.validationErr, s0)) ∧
    (HandlerManager.save emptyStore brokenHandlerData).1 =
      Except.error Err.validationErr ∧
    (ManifestHandlerManager.save emptyStore brokenMhd).1 =
      Except.error Err.validationErr :=
  address_validation_error_propagates emptyStore brokenMhd brokenHandlerData
    rfl rfl rfl (Or.inl rfl)

end Haztrak

namespace Haztrak

/-- A serializer save that returns a Manifest returns one carrying the mtn of
the JSON. -/
theorem serializerSave_ok_mtn (s : Store) (j : ManifestJson) (m : Manifest)
    (s1 : Store) (hs : ManifestService.serializerSave s j = (Except.ok m, s1)) :
    m.mtn = j.mtn := by
  simp only [ManifestService.serializerSave] at hs
  split at hs
  · simp at hs
  · simp only [Prod.mk.injEq, Except.ok.injEq] at hs
    obtain ⟨rfl, rfl⟩ := hs
    rfl

/-- A save_manifest that returns a Manifest returns one carrying the mtn of
the JSON. -/
theorem save_manifest_ok_mtn (s : Store) (j : ManifestJson) (m : Manifest)
    (s1 : Store) (hs : ManifestService.save_manifest s j = (Except.ok m, s1)) :
    m.mtn = j.mtn := by
  unfold ManifestService.save_manifest at hs
  by_cases hv : j.valid
  · simp only [hv, if_true] at hs
    split at hs
    next m0 st heq =>
      simp only [Prod.mk.injEq, Except.ok.injEq] at hs
      obtain ⟨rfl, rfl⟩ := hs
      exact serializerSave_ok_mtn s j m0 st heq
    next e st heq => simp at hs
  · simp only [hv] at hs
    simp at hs

/-- Under an mtn-faithful gateway, a successful pull step of mtn yields a
manifest whose mtn is the requested one. -/
theorem pull_step_some_mtn (retrieve : String → Except Err ManifestJson)
    (hfaith : ∀ mt j, retrieve mt = Except.ok j → j.mtn = mt)
    (s : Store) (mtn : String) (m : Manifest) (s1 : Store)
    (hs : ManifestService.pull_step retrieve s mtn = (some m, s1)) : m.mtn = mtn := by
  unfold ManifestService.pull_step at hs
  cases hr : retrieve mtn with
  | error e => rw [hr] at hs; simp at hs
  | ok j =>
    simp only [hr] at hs
    split at hs
    next m0 st heq =>
      simp only [Prod.mk.injEq, Option.some.injEq] at hs
      obtain ⟨rfl, rfl⟩ := hs
      rw [save_manifest_ok_mtn s j m0 st heq]
      exact hfaith mtn j hr
    next e st heq => simp at hs

/-- Under an mtn-faithful gateway, success and error lists together permute
the input and each preserves input order. -/
theorem pull_manifests_spec (retrieve : String → Except Err ManifestJson)
    (hfaith : ∀ mt j, retrieve mt = Except.ok j → j.mtn = mt) :
    ∀ (mtns : List String) (s : Store),
      List.Perm ((ManifestService.pull_manifests retrieve s mtns).1.1 ++
        (ManifestService.pull_manifests retrieve s mtns).1.2) mtns ∧
      List.Sublist (ManifestService.pull_manifests retrieve s mtns).1.1 mtns ∧
      List.Sublist (ManifestService.pull_manifests retrieve s mtns).1.2 mtns := by
  intro mtns
  induction mtns with
  | nil =>
    intro s
    simp [ManifestService.pull_manifests]
  | cons mtn rest ih =>
    intro s
    unfold ManifestService.pull_manifests
    cases hst : ManifestService.pull_step retrieve s mtn with
    | mk om s1 =>
      cases om with
      | some m =>
        simp only []
        obtain ⟨hp, h1, h2⟩ := ih s1
        have hmtn : m.mtn = mtn := pull_step_some_mtn retrieve hfaith s mtn m s1 hst
        rw [hmtn]
        refine ⟨?_, h1.cons₂ mtn, h2.cons mtn⟩
        simpa using hp.cons mtn
      | none =>
        simp only []
        obtain ⟨hp, h1, h2⟩ := ih s1
        refine ⟨?_, h1.cons mtn, h2.cons₂ mtn⟩
        exact List.perm_middle.trans (hp.cons mtn)

/-- C1 amended: for a gateway that returns manifests under their requested mtn
and an input list WITHOUT duplicate MTNs, the success and error lists
partition the input: together they permute it (so, as sets, their union is
exactly the input and nothing is dropped), each list follows input processing
order, and no MTN lands in both; the failure of one item never aborts the rest
(the loop is total by construction).  With duplicate MTNs in the input an MTN
can appear in both lists. -/
theorem pull_manifests_partition (retrieve : String → Except Err ManifestJson)
    (s : Store) (mtns : List String)
    (hfaith : ∀ mt j, retrieve mt = Except.ok j → j.mtn = mt)
    (hnodup : mtns.Nodup) :
    List.Perm ((ManifestService.pull_manifests retrieve s mtns).1.1 ++
      (ManifestService.pull_manifests retrieve s mtns).1.2) mtns ∧
    List.Sublist (ManifestService.pull_manifests retrieve s mtns).1.1 mtns ∧
    List.Sublist (ManifestService.pull_manifests retrieve s mtns).1.2 mtns ∧
    (∀ x, x ∈ (ManifestService.pull_manifests retrieve s mtns).1.1 →
      x ∉ (ManifestService.pull_manifests retrieve s mtns).1.2) := by
  obtain ⟨hp, h1, h2⟩ := pull_manifests_spec retrieve hfaith mtns s
  refine ⟨hp, h1, h2, ?_⟩
  have hnd := hp.symm.nodup hnodup
  rw [List.nodup_append] at hnd
  exact hnd.2.2

/-- C1 counterexample: with the input list ["MTN001", "MTN002", "MTN001"],
MTN001 first fails (its handler payload is missing address keys while the
handler does not yet exist), MTN002 creates that handler, and the second
MTN001 then succeeds by reusing it — so MTN001 appears in BOTH the success
and the error list, contradicting the claim as stated for arbitrary input
lists. -/
theorem pull_manifests_mtn_in_both_lists :
    "MTN001" ∈ (ManifestService.pull_manifests c1Env emptyStore
      ["MTN001", "MTN002", "MTN001"]).1.1 ∧
    "MTN001" ∈ (ManifestService.pull_manifests c1Env emptyStore
      ["MTN001", "MTN002", "MTN001"]).1.2 ∧
    (ManifestService.pull_manifests c1Env emptyStore
      ["MTN001", "MTN002", "MTN001"]).1 = (["MTN002", "MTN001"], ["MTN001"]) :=
  ⟨by decide, by decide, by decide⟩

/-- C1 amended, witness at a concrete gateway and input. -/
theorem pull_manifests_partition_witness :
    List.Perm ((ManifestService.pull_manifests c1FailEnv emptyStore ["A", "B"]).1.1 ++
      (ManifestService.pull_manifests c1FailEnv emptyStore ["A", "B"]).1.2) ["A", "B"] ∧
    List.Sublist (ManifestService.pull_manifests c1FailEnv emptyStore ["A", "B"]).1.1
      ["A", "B"] ∧
    List.Sublist (ManifestService.pull_manifests c1FailEnv emptyStore ["A", "B"]).1.2
      ["A", "B"] ∧
    (∀ x, x ∈ (ManifestService.pull_manifests c1FailEnv emptyStore ["A", "B"]).1.1 →
      x ∉ (ManifestService.pull_manifests c1FailEnv emptyStore ["A", "B"]).1.2) :=
  pull_manifests_partition c1FailEnv emptyStore ["A", "B"]
    (fun mt j h => Except.noConfusion h) (by decide)

end Haztrak
